import Mathlib

/-!
Verification of the CementCycle scoring engine
(`src/functions/index.js`, lines 462-759).

The JavaScript functions are shallowly embedded over ℚ (JS numbers) and
`Option` (absent / `undefined` fields).  JS relational comparisons whose
operand is `undefined` evaluate to `false` (NaN semantics); that is
captured by `jsGE` / `jsLT`.  The one-decimal output formatting done by
`Number.prototype.toFixed(1)` is modelled by `roundTo1`, and `Math.round`
by Mathlib's `round` (both round halves up for the nonnegative values
that occur here).  All embedded functions are total Lean functions, which
reflects that the source functions are straight-line arithmetic with
default-substituting table lookups and no throw sites.
-/

namespace CementCycle

/-- JS `a >= b` where either side may be `undefined`: a relational
comparison against `undefined` is `false`. -/
def jsGE : Option ℚ → Option ℚ → Bool
  | some a, some b => decide (b ≤ a)
  | _, _ => false

/-- JS `a < b` where either side may be `undefined`. -/
def jsLT : Option ℚ → Option ℚ → Bool
  | some a, some b => decide (a < b)
  | _, _ => false

/-- JS `String.prototype.toLowerCase` (the source only uses ASCII keys). -/
def jsToLower (s : String) : String :=
  String.mk (s.data.map Char.toLower)

/-- JS `String.prototype.replace(' ', '_')` replaces only the first space. -/
def replaceFirstSpace : List Char → List Char
  | [] => []
  | c :: cs => if c = ' ' then '_' :: cs else c :: replaceFirstSpace cs

/-- Models `wasteType.toLowerCase().replace(' ', '_')`, the material-key
normalisation used by `calculateCO2Impact` and `calculateDynamicPricing`. -/
def normalizeMaterial (s : String) : String :=
  String.mk (replaceFirstSpace (jsToLower s).data)

/-- Value of `x.toFixed(1)` read back as a number: `x` rounded to one decimal. -/
def roundTo1 (x : ℚ) : ℚ := (round (10 * x) : ℤ) / 10

/-- Cement requirement record (buyer side) as consumed by the scoring
functions: `materials_needed`, `capacity`, `urgency`, `price_offered`.
Any field may be absent. -/
structure Requirement where
  materials_needed : Option (List String)
  capacity : Option ℚ
  urgency : Option String
  price_offered : Option ℚ

/-- Producer-side waste listing fields read by `createMatch`. -/
structure WasteListing where
  type : Option String
  quantity : Option ℚ
  quality_grade : Option String

/-- Models `requirement.materials_needed?.includes(wasteType?.toLowerCase())`
(index.js:589): an absent list gives a falsy result; `includes(undefined)`
on a list of strings is `false`; otherwise the list is searched for the
*lowercased* material type by exact (`===`) comparison — the list entries
themselves are not lowercased. -/
def materialsNeededIncludes (l : Option (List String)) (wt : Option String) : Bool :=
  match l with
  | none => false
  | some l =>
    match wt with
    | none => false
    | some wt => l.contains (jsToLower wt)

/-- Models `qualityScores[qualityGrade?.toLowerCase()] || 5` (index.js:594-595). -/
def qualityScore (qualityGrade : Option String) : ℤ :=
  match qualityGrade with
  | none => 5
  | some g =>
    if jsToLower g = "premium" then 15
    else if jsToLower g = "grade_a" then 12
    else if jsToLower g = "grade_1" then 12
    else if jsToLower g = "standard" then 8
    else 5

/-- Embedding of `calculateAdvancedCompatibility(wasteType, quantity, qualityGrade,
requirement)` (index.js:586-600). -/
def calculateAdvancedCompatibility (wasteType : Option String) (quantity : Option ℚ)
    (qualityGrade : Option String) (requirement : Requirement) : ℤ :=
  let score : ℤ := 50
  let score := score +
    (if materialsNeededIncludes requirement.materials_needed wasteType then 25 else 0)
  let score := score +
    (if jsGE requirement.capacity quantity then 15
     else if jsGE requirement.capacity (quantity.map (fun q => q * 0.7)) then 10
     else 0)
  let score := score + qualityScore qualityGrade
  let score := score + (if requirement.urgency = some "high" then 8 else 0)
  min score 98

/-- Result record of `calculateCO2Impact` (index.js:617-626).  The fields
produced by `toFixed(1)` in the source carry their numeric value rounded
to one decimal (`roundTo1`). -/
structure CO2Impact where
  co2_saved : ℚ
  trees_equivalent : ℤ
  carbon_credits : ℤ
  process_description : String
  cement_offset : ℚ
  water_saved : ℚ
  energy_offset : ℚ
  air_quality_improvement : ℚ

/-- The coefficient table lookup with its `|| {co2_per_ton: 0.5, ...}`
default (index.js:603-611). -/
def co2Coefficient (wasteType : Option String) : ℚ × String :=
  match wasteType with
  | none => (0.5, "General waste material")
  | some wt =>
    if normalizeMaterial wt = "fly_ash" then (0.8, "Replaces cement production")
    else if normalizeMaterial wt = "steel_slag" then (0.7, "Reduces limestone mining")
    else if normalizeMaterial wt = "silica_fume" then (1.2, "High-efficiency replacement")
    else if normalizeMaterial wt = "bottom_ash" then (0.6, "Reduces aggregate extraction")
    else (0.5, "General waste material")

/-- Embedding of `calculateCO2Impact(wasteType, quantity)` (index.js:602-627). -/
def calculateCO2Impact (wasteType : Option String) (quantity : ℚ) : CO2Impact :=
  let coefficient := co2Coefficient wasteType
  let co2Saved := quantity * coefficient.1
  let treesEquivalent := round (co2Saved * 1.2)
  let carbonCredits := co2Saved * 1200
  { co2_saved := roundTo1 co2Saved
    trees_equivalent := treesEquivalent
    carbon_credits := round carbonCredits
    process_description := coefficient.2
    cement_offset := roundTo1 (quantity * 0.85)
    water_saved := roundTo1 (quantity * 2.5)
    energy_offset := roundTo1 (co2Saved * 2.1)
    air_quality_improvement := roundTo1 (quantity * 0.3) }

/-- The quality multiplier table shared verbatim by
`calculateDynamicRevenue` (index.js:634-640) and
`calculateDynamicPricing` (index.js:665-668), keyed by the lowercased
grade, with `|| 1.0` default for unknown grades. -/
def qualityMultiplier (g : String) : ℚ :=
  if jsToLower g = "premium" then 1.15
  else if jsToLower g = "grade_a" then 1.08
  else if jsToLower g = "grade_1" then 1.08
  else if jsToLower g = "standard" then 1.0
  else if jsToLower g = "below_standard" then 0.85
  else 1.0

/-- Embedding of `calculateDynamicRevenue(quantity, pricePerTon, qualityGrade)`
(index.js:629-650).  `if (!quantity || !pricePerTon) return 0` covers
absent and zero inputs; `if (qualityGrade)` skips the quality multiplier
for an absent or empty grade. -/
def calculateDynamicRevenue (quantity pricePerTon : Option ℚ)
    (qualityGrade : Option String) : ℤ :=
  match quantity, pricePerTon with
  | some q, some p =>
    if q = 0 ∨ p = 0 then 0
    else
      let baseRevenue : ℚ := q * p
      let baseRevenue : ℚ :=
        match qualityGrade with
        | none => baseRevenue
        | some g => if g = "" then baseRevenue else baseRevenue * qualityMultiplier g
      let baseRevenue : ℚ :=
        if 1000 ≤ q then baseRevenue * 1.12
        else if 500 ≤ q then baseRevenue * 1.08
        else baseRevenue
      round baseRevenue
  | _, _ => 0

/-- One row of the base-price table of `calculateDynamicPricing`. -/
structure MaterialPrice where
  base : ℚ
  trend : ℚ
  volatility : ℚ

/-- The base-price table lookup with its
`|| {base: 2500, trend: 1.0, volatility: 0.10}` default
(index.js:653-661). -/
def materialPriceData (wasteType : Option String) : MaterialPrice :=
  match wasteType with
  | none => ⟨2500, 1.0, 0.10⟩
  | some wt =>
    if normalizeMaterial wt = "fly_ash" then ⟨2800, 1.05, 0.12⟩
    else if normalizeMaterial wt = "steel_slag" then ⟨2200, 1.08, 0.15⟩
    else if normalizeMaterial wt = "silica_fume" then ⟨4500, 1.12, 0.08⟩
    else if normalizeMaterial wt = "bottom_ash" then ⟨1800, 1.03, 0.10⟩
    else ⟨2500, 1.0, 0.10⟩

/-- Models `qualityMultipliers[qualityGrade?.toLowerCase()] || 1.0`
(index.js:665-669): an absent grade indexes with `undefined` and falls
back to `1.0`. -/
def pricingQualityMultiplier (qualityGrade : Option String) : ℚ :=
  match qualityGrade with
  | none => 1.0
  | some g => qualityMultiplier g

/-- Result record of `calculateDynamicPricing` (index.js:686-698). -/
structure PricingResult where
  base_price : ℤ
  quality_multiplier : ℚ
  volume_tier : String
  volume_adjustment : String
  location_premium : String
  final_price : ℤ
  total_value : Option ℤ
  quality_bonus : ℤ
  bulk_premium : ℤ
  express_premium : ℤ
  carbon_credit_bonus : ℤ

/-- Embedding of `calculateDynamicPricing(wasteType, location, quantity, qualityGrade)`
(index.js:652-699).  The `location` argument is unused by the source body.
`finalPrice` is built by sequential multiplication (base × trend, then
quality, then the volume branch); `total_value` is `null` for an absent
or zero (falsy) quantity and uses the unrounded final price. -/
def calculateDynamicPricing (wasteType location : Option String) (quantity : Option ℚ)
    (qualityGrade : Option String) : PricingResult :=
  let priceData := materialPriceData wasteType
  let qualityMult := pricingQualityMultiplier qualityGrade
  let price0 := priceData.base * priceData.trend * qualityMult
  let finalPrice :=
    if jsGE quantity (some 1000) then price0 * 1.12
    else if jsGE quantity (some 500) then price0 * 1.08
    else if jsLT quantity (some 100) then price0 * 0.95
    else price0
  let volumeAdjustment :=
    if jsGE quantity (some 1000) then "Bulk Premium (+12%)"
    else if jsGE quantity (some 500) then "Volume Premium (+8%)"
    else if jsLT quantity (some 100) then "Small Batch (-5%)"
    else "Standard Rate"
  { base_price := round priceData.base
    quality_multiplier := qualityMult
    volume_tier :=
      if jsGE quantity (some 1000) then "Bulk"
      else if jsGE quantity (some 500) then "Volume"
      else "Standard"
    volume_adjustment := volumeAdjustment
    location_premium := "0% (Base location)"
    final_price := round finalPrice
    total_value :=
      match quantity with
      | some q => if q = 0 then none else some (round (finalPrice * q))
      | none => none
    quality_bonus := round ((qualityMult - 1) * priceData.base)
    bulk_premium :=
      if jsGE quantity (some 500) then (if jsGE quantity (some 1000) then 12 else 8) else 0
    express_premium := 150
    carbon_credit_bonus := 15 }

/-- The six-city coordinate table of `calculateOptimalDistance`
(index.js:564-571). -/
def cityCoordinates (name : String) : Option (ℚ × ℚ) :=
  if name = "mumbai" then some (19.0760, 72.8777)
  else if name = "chennai" then some (13.0827, 80.2707)
  else if name = "bangalore" then some (12.9716, 77.5946)
  else if name = "pune" then some (18.5204, 73.8567)
  else if name = "delhi" then some (28.7041, 77.1025)
  else if name = "kolkata" then some (22.5726, 88.3639)
  else none

/-- Models `cityCoordinates[location1?.toLowerCase()] || cityCoordinates['mumbai']`
(index.js:573).  The subsequent haversine formula (index.js:576-583) is a
fixed transcendental computation over the two resolved coordinate pairs
and adds no branching; the coordinate resolution is the part the
specification's claims are about. -/
def resolveOriginCity (location : Option String) : ℚ × ℚ :=
  (location.bind (fun l => cityCoordinates (jsToLower l))).getD (19.0760, 72.8777)

/-- Models `cityCoordinates[location2?.toLowerCase()] || cityCoordinates['pune']`
(index.js:574). -/
def resolveDestCity (location : Option String) : ℚ × ℚ :=
  (location.bind (fun l => cityCoordinates (jsToLower l))).getD (18.5204, 73.8567)

/-- Embedding of `estimateLogisticsCost(distance, quantity)` (index.js:734-739). -/
def estimateLogisticsCost (distance : ℚ) (quantity : Option ℚ) : ℤ :=
  let baseCost := distance * 45
  let volumeDiscount : ℚ :=
    if jsGE quantity (some 500) then 0.8
    else if jsGE quantity (some 200) then 0.9
    else 1.0
  round (baseCost * volumeDiscount)

/-- Fields of the match document assembled by the `createMatch` handler
(index.js:489-502).  `now` stands for the single wall-clock instant read
by `new Date()` / `Date.now()` (epoch milliseconds); a listing with an
absent quantity would make the CO2 estimate `NaN`, modelled as `none`. -/
structure MatchData where
  waste_id : String
  requirement_id : String
  match_score : ℤ
  status : String
  contact_preference : String
  created_at : ℤ
  expires_at : ℤ
  estimated_co2_savings : Option ℚ
  estimated_revenue : ℤ

/-- The match document constructed by `createMatch` (index.js:489-502):
`status: 'pending_contact'`, `created_at: new Date()`,
`expires_at: new Date(Date.now() + 7 * 24 * 60 * 60 * 1000)`. -/
def createMatchData (now : ℤ) (wasteId requirementId : String)
    (wasteData : WasteListing) (requirementData : Requirement)
    (contactPreference : Option String) : MatchData :=
  { waste_id := wasteId
    requirement_id := requirementId
    match_score := calculateAdvancedCompatibility wasteData.type wasteData.quantity
      wasteData.quality_grade requirementData
    status := "pending_contact"
    contact_preference :=
      match contactPreference with
      | some c => if c = "" then "email" else c
      | none => "email"
    created_at := now
    expires_at := now + 7 * 24 * 60 * 60 * 1000
    estimated_co2_savings := wasteData.quantity.map
      (fun q => (calculateCO2Impact wasteData.type q).co2_saved)
    estimated_revenue := calculateDynamicRevenue wasteData.quantity
      requirementData.price_offered none }

/-- Follows the words of claim C2: membership of the material type in the
materials list under case-insensitive comparison of both sides. -/
def specMaterialsContainsCI (l : List String) (wt : String) : Bool :=
  l.any (fun m => jsToLower m = jsToLower wt)

/-- Follows the words of claim C2: the compatibility scorer as the claim
describes it, with the 25-point bonus granted on case-insensitive
membership (both the argument and the list entries lowercased).  Compared
against `calculateAdvancedCompatibility`, which lowercases only the
argument. -/
def specCompatibilityC2 (wasteType : Option String) (quantity : Option ℚ)
    (qualityGrade : Option String) (requirement : Requirement) : ℤ :=
  let score : ℤ := 50
  let score := score +
    (match requirement.materials_needed, wasteType with
     | some l, some wt => if specMaterialsContainsCI l wt then 25 else 0
     | _, _ => 0)
  let score := score +
    (if jsGE requirement.capacity quantity then 15
     else if jsGE requirement.capacity (quantity.map (fun q => q * 0.7)) then 10
     else 0)
  let score := score + qualityScore qualityGrade
  let score := score + (if requirement.urgency = some "high" then 8 else 0)
  min score 98

/-- Follows the words of claim C5: the volume multiplier as a single
function of quantity, tiers evaluated highest-threshold-first
(+12% at ≥1000, +8% at ≥500, −5% at <100, else 1.0). -/
def specVolumeMultiplier (quantity : Option ℚ) : ℚ :=
  if jsGE quantity (some 1000) then 1.12
  else if jsGE quantity (some 500) then 1.08
  else if jsLT quantity (some 100) then 0.95
  else 1.0

/-- Follows the words of claim C5: the tier label selected
highest-threshold-first. -/
def specVolumeLabel (quantity : Option ℚ) : String :=
  if jsGE quantity (some 1000) then "Bulk Premium (+12%)"
  else if jsGE quantity (some 500) then "Volume Premium (+8%)"
  else if jsLT quantity (some 100) then "Small Batch (-5%)"
  else "Standard Rate"

/-- The four material keys recognised by the coefficient and price
tables. -/
def isKnownMaterial (wt : String) : Bool :=
  decide (normalizeMaterial wt ∈
    (["fly_ash", "steel_slag", "silica_fume", "bottom_ash"] : List String))

/-- The grade keys recognised by the quality tables (score table plus the
multiplier table). -/
def isKnownGrade (g : String) : Bool :=
  decide (jsToLower g ∈
    (["premium", "grade_a", "grade_1", "standard", "below_standard"] : List String))

/-! ## Helper lemmas -/

lemma qualityScore_bounds (qg : Option String) :
    5 ≤ qualityScore qg ∧ qualityScore qg ≤ 15 := by
  cases qg with
  | none => exact ⟨le_refl 5, by simp only [qualityScore]; omega⟩
  | some g =>
    simp only [qualityScore]
    split_ifs <;> omega

/-- The `co2_saved` field of `calculateCO2Impact`, by definition. -/
lemma co2_saved_def (m : Option String) (q : ℚ) :
    (calculateCO2Impact m q).co2_saved = roundTo1 (q * (co2Coefficient m).1) := rfl

/-- The CO2 coefficient always takes one of the five table values. -/
lemma co2Coefficient_cases (m : Option String) :
    (co2Coefficient m).1 = 0.8 ∨ (co2Coefficient m).1 = 0.7 ∨
    (co2Coefficient m).1 = 1.2 ∨ (co2Coefficient m).1 = 0.6 ∨
    (co2Coefficient m).1 = 0.5 := by
  cases m with
  | none => right; right; right; right; rfl
  | some wt =>
    simp only [co2Coefficient]
    split_ifs <;> tauto

/-- Lemma: `roundTo1` is the identity on a rational that is an integer multiple
of one tenth. -/
lemma roundTo1_eq_self (x : ℚ) (k : ℤ) (h : 10 * x = (k : ℚ)) :
    roundTo1 x = x := by
  unfold roundTo1
  rw [h, round_intCast]
  field_simp
  linarith

/-- For a coefficient with one decimal digit, `roundTo1` is exact on all
integer multiples. -/
lemma roundTo1_intCast_mul (n : ℤ) (c : ℚ) (j : ℤ) (hj : 10 * c = (j : ℚ)) :
    roundTo1 ((n : ℚ) * c) = (n : ℚ) * c := by
  refine roundTo1_eq_self _ (n * j) ?_
  push_cast
  rw [show (10 : ℚ) * ((n : ℚ) * c) = (n : ℚ) * (10 * c) from by ring, hj]

/-! ## Claim theorems -/

/-- C1. For every input (material type, quantity, quality grade,
requirement record), `calculateAdvancedCompatibility` returns an integer
score in [0, 98]; the ceiling 98 is enforced by the `Math.min` clamp, and
is attained (the spec's end-to-end scenario clamps 113 down to 98). -/
theorem compatibility_score_in_range :
    (∀ wt q qg req, 0 ≤ calculateAdvancedCompatibility wt q qg req
        ∧ calculateAdvancedCompatibility wt q qg req ≤ 98)
    ∧ calculateAdvancedCompatibility (some "fly_ash") (some 500) (some "premium")
        ⟨some ["fly_ash"], some 600, some "high", none⟩ = 98 := by
  constructor
  · intro wt q qg req
    have h := qualityScore_bounds qg
    simp only [calculateAdvancedCompatibility]
    split_ifs <;> constructor <;> omega
  · have h1 : materialsNeededIncludes (some ["fly_ash"]) (some "fly_ash") = true := by
      decide
    have h2 : jsGE (some (600 : ℚ)) (some 500) = true := by decide
    have h3 : qualityScore (some "premium") = 15 := by decide
    simp only [calculateAdvancedCompatibility, h1, h2, h3]
    norm_num [min_def]

/-- C10. Implicit floor: the compatibility score is always at least 55
(base 50 plus the minimum quality bonus 5), and fully missing or
unrecognised input degrades to exactly 55, never to 0. -/
theorem compatibility_score_at_least_55 :
    (∀ wt q qg req, 55 ≤ calculateAdvancedCompatibility wt q qg req)
    ∧ calculateAdvancedCompatibility none none none ⟨none, none, none, none⟩ = 55 := by
  constructor
  · intro wt q qg req
    have h := qualityScore_bounds qg
    simp only [calculateAdvancedCompatibility]
    split_ifs <;> omega
  · simp [calculateAdvancedCompatibility, materialsNeededIncludes, qualityScore, jsGE,
      min_def]

/-- C2 counterexample. With material type `"Fly_ash"` and materials list
`["Fly_ash"]`, the list contains the type case-insensitively (so the
claim demands the 25-point bonus, total 80), but the code compares the
lowercased argument `"fly_ash"` against the unlowered entry `"Fly_ash"`
and grants no bonus: the score is 55, not 80. -/
theorem compatibility_ci_counterexample :
    specCompatibilityC2 (some "Fly_ash") none none
        ⟨some ["Fly_ash"], none, none, none⟩ = 80
    ∧ calculateAdvancedCompatibility (some "Fly_ash") none none
        ⟨some ["Fly_ash"], none, none, none⟩ = 55
    ∧ (55 : ℤ) ≠ 80 := by
  refine ⟨?_, ?_, by omega⟩
  · have h : specMaterialsContainsCI ["Fly_ash"] "Fly_ash" = true := by decide
    simp [specCompatibilityC2, h, qualityScore, jsGE, min_def]
  · have h : materialsNeededIncludes (some ["Fly_ash"]) (some "Fly_ash") = false := by
      decide
    simp [calculateAdvancedCompatibility, h, qualityScore, jsGE, min_def]

/-- C2 amended. The 25-point bonus is granted exactly when the
requirement's materials list contains the *lowercased* material type by
exact comparison: the comparison is case-insensitive in the material-type
argument (shown here: two argument spellings with equal lowercasings give
identical scores) but case-sensitive in the list entries (shown by the
counterexample). -/
theorem compatibility_ci_in_argument (wt1 wt2 : String) (q : Option ℚ)
    (qg : Option String) (req : Requirement)
    (h : jsToLower wt1 = jsToLower wt2) :
    calculateAdvancedCompatibility (some wt1) q qg req
      = calculateAdvancedCompatibility (some wt2) q qg req := by
  have hm : materialsNeededIncludes req.materials_needed (some wt1)
      = materialsNeededIncludes req.materials_needed (some wt2) := by
    cases req.materials_needed <;> simp [materialsNeededIncludes, h]
  simp only [calculateAdvancedCompatibility, hm]

/-- Witness for the C2 amended theorem at a concrete input. -/
theorem compatibility_ci_in_argument_witness :
    jsToLower "FLY_ASH" = jsToLower "fly_ash"
    ∧ calculateAdvancedCompatibility (some "FLY_ASH") none none
        ⟨some ["fly_ash"], none, none, none⟩
      = calculateAdvancedCompatibility (some "fly_ash") none none
        ⟨some ["fly_ash"], none, none, none⟩ :=
  ⟨by decide, compatibility_ci_in_argument "FLY_ASH" "fly_ash" none none
    ⟨some ["fly_ash"], none, none, none⟩ (by decide)⟩

/-- C3 amended. `calculateCO2Impact` looks up the per-ton coefficient
(fly ash 0.8, steel slag 0.7, silica fume 1.2, bottom ash 0.6, unknown
0.5) and returns `treesEquivalent = round(co2Saved × 1.2)` and
`carbonCredits = round(co2Saved × 1200)` exactly as claimed, while the
`toFixed(1)`-formatted fields — co2Saved, cementOffset, waterSaved,
energyOffset, airQualityImprovement — carry the claimed formulas rounded
to one decimal place.  The end-to-end scenario (fly_ash, 500 →
co2Saved 400, trees 480, credits 480000) holds exactly. -/
theorem co2_impact_formulas :
    (∀ m q,
        (calculateCO2Impact m q).co2_saved = roundTo1 (q * (co2Coefficient m).1)
      ∧ (calculateCO2Impact m q).trees_equivalent = round (q * (co2Coefficient m).1 * 1.2)
      ∧ (calculateCO2Impact m q).carbon_credits = round (q * (co2Coefficient m).1 * 1200)
      ∧ (calculateCO2Impact m q).cement_offset = roundTo1 (q * 0.85)
      ∧ (calculateCO2Impact m q).water_saved = roundTo1 (q * 2.5)
      ∧ (calculateCO2Impact m q).energy_offset = roundTo1 (q * (co2Coefficient m).1 * 2.1)
      ∧ (calculateCO2Impact m q).air_quality_improvement = roundTo1 (q * 0.3))
    ∧ (co2Coefficient (some "fly_ash")).1 = 0.8
    ∧ (co2Coefficient (some "steel_slag")).1 = 0.7
    ∧ (co2Coefficient (some "silica_fume")).1 = 1.2
    ∧ (co2Coefficient (some "bottom_ash")).1 = 0.6
    ∧ (co2Coefficient none).1 = 0.5
    ∧ (calculateCO2Impact (some "fly_ash") 500).co2_saved = 400
    ∧ (calculateCO2Impact (some "fly_ash") 500).trees_equivalent = 480
    ∧ (calculateCO2Impact (some "fly_ash") 500).carbon_credits = 480000 := by
  have hfa : (co2Coefficient (some "fly_ash")).1 = 0.8 := rfl
  refine ⟨fun m q => ⟨rfl, rfl, rfl, rfl, rfl, rfl, rfl⟩, rfl, rfl, rfl, rfl, rfl,
    ?_, ?_, ?_⟩
  · rw [co2_saved_def, hfa]
    norm_num [roundTo1, round_eq]
  · show round ((500 : ℚ) * (co2Coefficient (some "fly_ash")).1 * 1.2) = 480
    rw [hfa]; norm_num [round_eq]
  · show round ((500 : ℚ) * (co2Coefficient (some "fly_ash")).1 * 1200) = 480000
    rw [hfa]; norm_num [round_eq]

/-- C3 counterexample. At material fly_ash, quantity 1 the claim demands
`energyOffset = co2Saved × 2.1 = 0.8 × 2.1 = 1.68`, but the code returns
`(co2Saved * 2.1).toFixed(1)`, i.e. 1.7. -/
theorem co2_impact_counterexample :
    (calculateCO2Impact (some "fly_ash") 1).energy_offset = 1.7
    ∧ (1.7 : ℚ) ≠ 1 * 0.8 * 2.1 := by
  constructor
  · show roundTo1 ((1 : ℚ) * (co2Coefficient (some "fly_ash")).1 * 2.1) = 1.7
    rw [show (co2Coefficient (some "fly_ash")).1 = 0.8 from rfl]
    norm_num [roundTo1, round_eq]
  · norm_num

/-- C4 amended. For a fixed material the unrounded CO2 saving is exactly
linear in quantity; because every table coefficient has a single decimal
digit, the returned one-decimal `co2_saved` field is therefore exactly
linear for all whole-number (integer) quantities:
`co2Impact(m, 2q).co2Saved = 2 · co2Impact(m, q).co2Saved` for `q : ℕ`.
(The counterexample shows it fails for fractional quantities, where the
`toFixed(1)` rounding intervenes.) -/
theorem co2_saved_linear_on_integers (m : Option String) (n : ℕ) :
    (calculateCO2Impact m (2 * (n : ℚ))).co2_saved
      = 2 * (calculateCO2Impact m (n : ℚ)).co2_saved := by
  have key : ∀ c : ℚ, ∀ j : ℤ, 10 * c = (j : ℚ) →
      roundTo1 (2 * (n : ℚ) * c) = 2 * roundTo1 ((n : ℚ) * c) := by
    intro c j hj
    have h1 := roundTo1_intCast_mul (n : ℤ) c j hj
    have h2 := roundTo1_intCast_mul (2 * (n : ℤ)) c j hj
    push_cast at h1 h2
    rw [h1, h2]
    ring
  rw [co2_saved_def, co2_saved_def]
  rcases co2Coefficient_cases m with h | h | h | h | h <;> rw [h]
  · exact key 0.8 8 (by norm_num)
  · exact key 0.7 7 (by norm_num)
  · exact key 1.2 12 (by norm_num)
  · exact key 0.6 6 (by norm_num)
  · exact key 0.5 5 (by norm_num)

/-- C4 counterexample. At material fly_ash and quantity 1/20 (0.05 tons),
doubling the quantity does not double the returned `co2_saved` field:
`co2Impact(fly_ash, 0.1).co2_saved = 0.1` (0.08 formatted to one decimal)
while `2 · co2Impact(fly_ash, 0.05).co2_saved = 2 · 0.0 = 0`. -/
theorem co2_saved_linearity_counterexample :
    (calculateCO2Impact (some "fly_ash") (2 * (1 / 20))).co2_saved = 1 / 10
    ∧ 2 * (calculateCO2Impact (some "fly_ash") (1 / 20)).co2_saved = 0
    ∧ (calculateCO2Impact (some "fly_ash") (2 * (1 / 20))).co2_saved
        ≠ 2 * (calculateCO2Impact (some "fly_ash") (1 / 20)).co2_saved := by
  have h1 : (calculateCO2Impact (some "fly_ash") (2 * (1 / 20))).co2_saved = 1 / 10 := by
    rw [co2_saved_def, show (co2Coefficient (some "fly_ash")).1 = 0.8 from rfl]
    norm_num [roundTo1, round_eq]
  have h2 : (calculateCO2Impact (some "fly_ash") (1 / 20)).co2_saved = 0 := by
    rw [co2_saved_def, show (co2Coefficient (some "fly_ash")).1 = 0.8 from rfl]
    norm_num [roundTo1, round_eq]
  refine ⟨h1, by rw [h2]; ring, ?_⟩
  rw [h1, h2]
  norm_num

/-- C5 amended. For every input, `calculateDynamicPricing` returns
`finalPrice = round(base × trend × qualityMultiplier(grade) ×
volumeMultiplier(quantity))`, where the volume multiplier and its label
are the mutually exclusive, highest-threshold-first tiers of the claim
(+12% at ≥1000, +8% at ≥500, −5% at <100, else 1.0); in particular
quantity 1500 yields the ≥1000 tier label and not the ≥500 one. -/
theorem pricing_final_price_product :
    (∀ wt loc q qg,
        (calculateDynamicPricing wt loc q qg).final_price
          = round ((materialPriceData wt).base * (materialPriceData wt).trend
              * pricingQualityMultiplier qg * specVolumeMultiplier q)
      ∧ (calculateDynamicPricing wt loc q qg).volume_adjustment = specVolumeLabel q)
    ∧ (∀ wt loc qg,
        (calculateDynamicPricing wt loc (some 1500) qg).volume_adjustment
          = "Bulk Premium (+12%)"
      ∧ (calculateDynamicPricing wt loc (some 1500) qg).volume_adjustment
          ≠ "Volume Premium (+8%)") := by
  constructor
  · intro wt loc q qg
    constructor
    · simp only [calculateDynamicPricing, specVolumeMultiplier]
      split_ifs <;> norm_num
    · simp only [calculateDynamicPricing, specVolumeLabel]
  · intro wt loc qg
    have h : jsGE (some (1500 : ℚ)) (some 1000) = true := by decide
    constructor
    · simp [calculateDynamicPricing, h]
    · simp [calculateDynamicPricing, h]

/-- C5 counterexample. At fly_ash, premium, quantity 1000 the claimed
product is base × trend × quality × volume = 2800 × 1.05 × 1.15 × 1.12 =
3786.72, but the returned `finalPrice` is the integer `Math.round` of it,
3787, so `finalPrice` does not equal the claimed product. -/
theorem pricing_rounding_counterexample :
    (calculateDynamicPricing (some "fly_ash") none (some 1000)
        (some "premium")).final_price = 3787
    ∧ (2800 * 1.05 * 1.15 * 1.12 : ℚ) = 3786.72
    ∧ ((3787 : ℤ) : ℚ) ≠ 3786.72 := by
  refine ⟨?_, by norm_num, by norm_num⟩
  have hn : normalizeMaterial "fly_ash" = "fly_ash" := by decide
  have hp : jsToLower "premium" = "premium" := by decide
  have hg : jsGE (some (1000 : ℚ)) (some 1000) = true := by decide
  simp only [calculateDynamicPricing, materialPriceData, pricingQualityMultiplier,
    qualityMultiplier, hn, hp, hg]
  norm_num [round_eq]

/-- C7. `revenue(1000, 3000, 'premium')` equals
round(1000 × 3000 × 1.15 × 1.12) = 3,864,000 — quality multiplier before
volume multiplier, result rounded to an integer. -/
theorem revenue_premium_scenario :
    calculateDynamicRevenue (some 1000) (some 3000) (some "premium") = 3864000
    ∧ round ((1000 : ℚ) * 3000 * 1.15 * 1.12) = (3864000 : ℤ) := by
  constructor
  · have hp : jsToLower "premium" = "premium" := by decide
    simp only [calculateDynamicRevenue, qualityMultiplier, hp,
      if_neg (show ¬("premium" = "") from by decide)]
    norm_num [round_eq]
  · norm_num [round_eq]

/-- C8. `calculateDynamicRevenue` returns 0 whenever the quantity is
absent or zero (for every price and grade), and whenever the price is
absent or zero (for every quantity and grade). -/
theorem revenue_zero_on_missing_or_zero :
    ∀ (q p : Option ℚ) (g : Option String),
      calculateDynamicRevenue none p g = 0
    ∧ calculateDynamicRevenue (some 0) p g = 0
    ∧ calculateDynamicRevenue q none g = 0
    ∧ calculateDynamicRevenue q (some 0) g = 0 := by
  intro q p g
  refine ⟨?_, ?_, ?_, ?_⟩
  · cases p <;> rfl
  · cases p with
    | none => rfl
    | some a => simp [calculateDynamicRevenue]
  · cases q <;> rfl
  · cases q with
    | none => rfl
    | some b => simp [calculateDynamicRevenue]

/-- C9. Every match record built by `createMatch` starts with status
`pending_contact` and expires exactly 7 days (7 × 24 × 60 × 60 × 1000 ms)
after its creation timestamp. -/
theorem match_pending_and_expiry :
    ∀ (now : ℤ) (wid rid : String) (w : WasteListing) (r : Requirement)
      (cp : Option String),
      (createMatchData now wid rid w r cp).status = "pending_contact"
    ∧ (createMatchData now wid rid w r cp).expires_at
        = (createMatchData now wid rid w r cp).created_at + 7 * 24 * 60 * 60 * 1000 :=
  fun _ _ _ _ _ _ => ⟨rfl, rfl⟩

/-- C6. Every scoring function is a total computation (each embedding is
a total Lean function over its full input space) that substitutes the
documented defaults for missing or unrecognised inputs instead of
failing: an unknown material falls back to CO2 coefficient 0.5 and price
data base 2500/trend 1.0; an unknown grade falls back to multiplier 1.0
and quality bonus 5; an unknown city resolves to the Mumbai (origin) /
Pune (destination) defaults; a missing quantity makes revenue 0, the
logistics volume discount 1.0, and the compatibility score its floor
55. -/
theorem scoring_functions_total_defaults
    (wt g loc : String) (q d : ℚ) (price qty : Option ℚ) (loc2 qg2 : Option String)
    (hm : isKnownMaterial wt = false)
    (hg : isKnownGrade g = false)
    (hc : cityCoordinates (jsToLower loc) = none) :
    (calculateCO2Impact (some wt) q).co2_saved = roundTo1 (q * 0.5)
    ∧ (calculateCO2Impact none q).co2_saved = roundTo1 (q * 0.5)
    ∧ (calculateDynamicPricing (some wt) loc2 qty qg2).base_price = 2500
    ∧ qualityMultiplier g = 1.0
    ∧ qualityScore (some g) = 5
    ∧ resolveOriginCity (some loc) = (19.0760, 72.8777)
    ∧ resolveDestCity (some loc) = (18.5204, 73.8567)
    ∧ calculateDynamicRevenue none price qg2 = 0
    ∧ estimateLogisticsCost d none = round (d * 45)
    ∧ calculateAdvancedCompatibility none qty none ⟨none, none, none, none⟩ = 55 := by
  rw [isKnownMaterial, decide_eq_false_iff_not] at hm
  simp only [List.mem_cons, List.mem_singleton, not_or] at hm
  obtain ⟨h1, h2, h3, h4⟩ := hm
  rw [isKnownGrade, decide_eq_false_iff_not] at hg
  simp only [List.mem_cons, List.mem_singleton, not_or] at hg
  obtain ⟨g1, g2, g3, g4, g5⟩ := hg
  refine ⟨?_, rfl, ?_, ?_, ?_, ?_, ?_, ?_, ?_, ?_⟩
  · rw [co2_saved_def]
    simp [co2Coefficient, h1, h2, h3, h4]
  · simp only [calculateDynamicPricing, materialPriceData]
    simp [h1, h2, h3, h4]
  · simp [qualityMultiplier, g1, g2, g3, g4, g5]
  · simp [qualityScore, g1, g2, g3, g4]
  · simp [resolveOriginCity, hc]
  · simp [resolveDestCity, hc]
  · cases price <;> rfl
  · simp only [estimateLogisticsCost, jsGE]
    norm_num
  · simp [calculateAdvancedCompatibility, materialsNeededIncludes, qualityScore, jsGE,
      min_def]

/-- Witness for C6 at a concrete unknown material, grade, and city. -/
theorem scoring_functions_total_defaults_witness :
    (isKnownMaterial "plastic" = false
      ∧ isKnownGrade "ultra" = false
      ∧ cityCoordinates (jsToLower "atlantis") = none)
    ∧ ((calculateCO2Impact (some "plastic") 1).co2_saved = roundTo1 (1 * 0.5)
      ∧ (calculateCO2Impact none 1).co2_saved = roundTo1 (1 * 0.5)
      ∧ (calculateDynamicPricing (some "plastic") none none none).base_price = 2500
      ∧ qualityMultiplier "ultra" = 1.0
      ∧ qualityScore (some "ultra") = 5
      ∧ resolveOriginCity (some "atlantis") = (19.0760, 72.8777)
      ∧ resolveDestCity (some "atlantis") = (18.5204, 73.8567)
      ∧ calculateDynamicRevenue none none none = 0
      ∧ estimateLogisticsCost 1 none = round ((1 : ℚ) * 45)
      ∧ calculateAdvancedCompatibility none none none ⟨none, none, none, none⟩ = 55) :=
  ⟨⟨by decide, by decide, by decide⟩,
    scoring_functions_total_defaults "plastic" "ultra" "atlantis" 1 1 none none none none
      (by decide) (by decide) (by decide)⟩

end CementCycle
